import Mathlib

/-!
Verification of the CFPB complaint data acquisition pipeline
(src/analysis/real_data_fetcher_lite.py and src/analysis/real_data_fetcher.py).

A shallow embedding: pandas DataFrames become lists of typed rows (or, for
the legacy ZIP path where the column set is data-dependent, a column list
plus rows of string cells); calendar dates become integer day numbers;
environment variables become Option String values; exceptions raised by a
tier become Except values that the orchestrator model consumes the same way
the Python try or except blocks do.
-/

namespace CFPB

/-! ## String helpers

The Python code uses str.strip, str.lower and int(...) on configuration and
cell values.  The Lean builtin String.trim and String.toLower are opaque to
the kernel, so the same operations are defined here over the character list
of the string.
-/

/-- True when the string is empty or all whitespace, i.e. Python
s.strip() == "". -/
def strBlank (s : String) : Bool := s.data.all Char.isWhitespace

/-- Python str.lower over the character list. -/
def strLower (s : String) : String := ⟨s.data.map Char.toLower⟩

/-- Reads a nonempty all-digit character list as a natural number;
none when a non-digit appears. -/
def digitsToNat (l : List Char) : Option Nat :=
  l.foldl
    (fun acc c =>
      match acc with
      | none => none
      | some n => if c.isDigit then some (n * 10 + (c.toNat - 48)) else none)
    (some 0)

/-- Model of Python int(s) for decimal strings: surrounding whitespace is
ignored, an optional single leading sign is accepted, and the rest must be
one or more digits; none models the ValueError branch.  (Underscore digit
separators, accepted by Python 3.6+, are not modelled; no claim depends on
them.) -/
def pyParseInt (s : String) : Option Int :=
  let t := ((s.data.dropWhile Char.isWhitespace).reverse.dropWhile
    Char.isWhitespace).reverse
  match t with
  | [] => none
  | c :: rest =>
    if c = '-' then
      match rest with
      | [] => none
      | _ => (digitsToNat rest).map (fun n => -(n : Int))
    else if c = '+' then
      match rest with
      | [] => none
      | _ => (digitsToNat rest).map (fun n => (n : Int))
    else (digitsToNat t).map (fun n => (n : Int))

/-! ## Data model

One complaint record, with the canonical typed columns the pipeline uses.
Dates are integer day numbers; the second date column and the narrative are
optional, matching the permissive parse (errors="coerce") and the lite mode
of the fetcher.
-/

/-- One normalized complaint record (a row of the canonical schema). -/
structure Row where
  complaintId : String
  dateReceived : Int
  dateSent : Option Int
  product : String
  issue : String
  company : String
  state : String
  narrative : Option String
deriving DecidableEq, Repr

/-- Convenience constructor for concrete rows (dateSent left empty). -/
def mkRow (id : String) (d : Int) (p i co st : String) (n : Option String) :
    Row :=
  ⟨id, d, none, p, i, co, st, n⟩

/-- The resolved window and filter policy of one run: date bounds,
narrative requirement and the product exclusion set
(RealDataFetcher.start_date, end_date, include_narratives,
credit_exclusions). -/
structure WindowSpec where
  startDate : Int
  endDate : Int
  includeNarratives : Bool
  exclusions : List String
deriving DecidableEq, Repr

/-! ## Window Policy (RealDataFetcher.init, real_data_fetcher_lite.py
lines 16-39) -/

/-- The static product exclusion list self.credit_exclusions. -/
def creditExclusions : List String :=
  ["Credit reporting, credit repair services, or other personal consumer reports",
   "Credit reporting",
   "Credit repair services",
   "Other personal consumer reports"]

/-- months = int(env.get("MONTHS_WINDOW", "4")) with ValueError falling
back to 4, then months = max(1, min(months, 12)). -/
def monthsWindow (cfg : Option String) : Int :=
  let raw : Int :=
    match pyParseInt (cfg.getD "4") with
    | some n => n
    | none => 4
  max 1 (min raw 12)

/-- str(env.get("LITE_MODE", "0")).lower() in ("1", "true", "yes"). -/
def parseLiteMode (cfg : Option String) : Bool :=
  let v := strLower (cfg.getD "0")
  v == "1" || v == "true" || v == "yes"

/-- The WindowSpec computed by RealDataFetcher.init from the current time
and the two environment settings: end = now, start = now - 30 * months
days, include_narratives = not lite_mode, exclusions fixed. -/
def computeWindow (now : Int) (monthsCfg liteCfg : Option String) :
    WindowSpec :=
  ⟨now - 30 * monthsWindow monthsCfg, now, !(parseLiteMode liteCfg),
   creditExclusions⟩

/-! ## The window date filter (real_data_fetcher_lite.py lines 150-151,
real_data_fetcher.py lines 220-223) -/

/-- The date mask of one row: start_date <= Date received <= end_date. -/
def dateInWindow (w : WindowSpec) (r : Row) : Bool :=
  decide (w.startDate ≤ r.dateReceived) && decide (r.dateReceived ≤ w.endDate)

/-- df[(df["Date received"] >= start) & (df["Date received"] <= end)]. -/
def dateFilter (w : WindowSpec) (rows : List Row) : List Row :=
  rows.filter (fun r => dateInWindow w r)

/-! ## Remote Fetcher (RealDataFetcher.fetch_api,
real_data_fetcher_lite.py lines 41-122)

The Socrata server is modelled through its documented interface: it applies
the $where predicate built by the code, orders by date received descending
($order), and slices by $offset and $limit.  The $where string of the code
combines the date-between clause, consumer_complaint_narrative IS NOT NULL
when narratives are included, and product NOT IN(exclusions).
-/

/-- The server side $where predicate built at lines 43-50.  Note the
narrative clause is IS NOT NULL: it tests presence only, not blankness. -/
def wherePred (w : WindowSpec) (r : Row) : Bool :=
  dateInWindow w r
    && (!w.includeNarratives || r.narrative.isSome)
    && !(w.exclusions.contains r.product)

/-- ORDER BY date_received DESC, as a stable sort on the day number. -/
def socrataOrder (rows : List Row) : List Row :=
  List.insertionSort (fun a b => b.dateReceived ≤ a.dateReceived) rows

/-- One page of the server response for a given offset: filter by the
$where predicate, order, then slice by offset and limit. -/
def socrataPage (db : List Row) (w : WindowSpec) (batch offset : Nat) :
    List Row :=
  ((socrataOrder (db.filter (wherePred w))).drop offset).take batch

/-- batch = 25000 at line 69. -/
def apiBatchSize : Nat := 25000

/-- The paging loop of lines 74-93, with the page source abstracted as a
function from offset to returned rows.  Returns the concatenated rows and
the number of page requests issued.  An empty body or empty chunk stops the
loop without appending; a chunk shorter than the batch size is appended and
stops the loop; a full chunk is appended and the loop continues at
offset + batch.  The fuel argument bounds the iteration count so the model
is total; every theorem below only needs enough fuel for the natural
stopping condition to fire. -/
def fetchPages (pages : Nat → List Row) (batch : Nat) :
    Nat → Nat → List Row × Nat
  | 0, _ => ([], 0)
  | fuel + 1, offset =>
    let chunk := pages offset
    if chunk = [] then ([], 1)
    else if chunk.length < batch then (chunk, 1)
    else
      let rest := fetchPages pages batch fuel (offset + batch)
      (chunk ++ rest.1, rest.2 + 1)

/-- RealDataFetcher.fetch_api against a server holding the dataset db:
run the paging loop over the filtered, ordered, sliced server pages; if no
frames were collected return none (line 95-96), otherwise the concatenated
table.  The subsequent rename to canonical column names, date parsing and
category interning (lines 99-116) leave the typed rows of this model
unchanged. -/
def fetchApi (w : WindowSpec) (db : List Row) (fuel : Nat) :
    Option (List Row) :=
  let res := fetchPages (socrataPage db w apiBatchSize) apiBatchSize fuel 0
  if res.1 = [] then none else some res.1

/-- fetch_api including its best effort cache write (lines 117-121): the
first component is the returned table, the second the cache content after
the call (written only when the write succeeds; the try or except pass
swallows a failure). -/
def fetchApiWrite (w : WindowSpec) (db : List Row) (fuel : Nat)
    (writeOk : Bool) : Option (List Row) × Option (List Row) :=
  match fetchApi w db fuel with
  | none => (none, none)
  | some df => (some df, if writeOk then some df else none)

/-! ## Data Loader (RealDataFetcher.load_and_filter_data,
real_data_fetcher_lite.py lines 124-198)

The three tiers are abstracted as an environment: the cache file state, the
outcome of calling fetch_api, and the outcome of calling the legacy ZIP
fetcher.  Except.error models an exception raised by the tier, which the
code catches with try or except; Except.ok none models the tier returning
None.
-/

instance exceptDecEq {ε α : Type} [DecidableEq ε] [DecidableEq α] :
    DecidableEq (Except ε α) := fun a b =>
  match a, b with
  | .error e, .error f =>
    if h : e = f then isTrue (by rw [h])
    else isFalse (by intro hc; cases hc; exact h rfl)
  | .error _, .ok _ => isFalse (by intro hc; cases hc)
  | .ok _, .error _ => isFalse (by intro hc; cases hc)
  | .ok x, .ok y =>
    if h : x = y then isTrue (by rw [h])
    else isFalse (by intro hc; cases hc; exact h rfl)

/-- The observable environment of one load_and_filter_data run. -/
structure Env where
  isCloud : Bool
  cacheExists : Bool
  cacheAgeDays : Nat
  cacheRead : Option (List Row)
  apiResult : Except Unit (Option (List Row))
  legacyResult : Except Unit (Option (List Row))
deriving DecidableEq

/-- The value returned by load_and_filter_data together with how many times
each fetcher was invoked during the run. -/
structure LoadResult where
  data : Option (List Row)
  apiCalls : Nat
  legacyCalls : Nat
deriving DecidableEq, Repr

/-- The cache tier (lines 136-162): the file must exist and the
environment must not be cloud; the age must be under 30 days; the read and
date parse must not raise (cacheRead = some rows); the rows re-filtered by
the window date bounds must be nonempty.  Any failure falls through to the
next tier. -/
def cacheTier (w : WindowSpec) (env : Env) : Option (List Row) :=
  if env.cacheExists && !env.isCloud then
    if env.cacheAgeDays < 30 then
      match env.cacheRead with
      | some rows =>
        let filtered := dateFilter w rows
        if 0 < filtered.length then some filtered else none
      | none => none
    else none
  else none

/-- The API tier (lines 164-177): df is returned when it is neither None
nor empty; an exception or a None or empty result falls through. -/
def apiTier (env : Env) : Option (List Row) :=
  match env.apiResult with
  | Except.ok (some rows) => if 0 < rows.length then some rows else none
  | Except.ok none => none
  | Except.error _ => none

/-- The legacy ZIP tier (lines 180-195), same shape as the API tier. -/
def legacyTier (env : Env) : Option (List Row) :=
  match env.legacyResult with
  | Except.ok (some rows) => if 0 < rows.length then some rows else none
  | Except.ok none => none
  | Except.error _ => none

/-- load_and_filter_data: cache tier, then API tier, then (local only) the
legacy ZIP tier, returning the first hit; None (modelled as data = none)
when all tiers fail.  The call counters record that fetch_api runs exactly
when the cache tier missed, and the legacy fetcher runs exactly when both
earlier tiers missed and the environment is not cloud. -/
def loadAndFilterData (w : WindowSpec) (env : Env) : LoadResult :=
  match cacheTier w env with
  | some rows => ⟨some rows, 0, 0⟩
  | none =>
    match apiTier env with
    | some rows => ⟨some rows, 1, 0⟩
    | none =>
      if env.isCloud then ⟨none, 1, 0⟩
      else
        match legacyTier env with
        | some rows => ⟨some rows, 1, 1⟩
        | none => ⟨none, 1, 1⟩

/-! ## Column schemas (C1)

The API path selects seven raw columns (eight with narratives) and renames
them to the canonical names (lines 52-62 and 99-111).  The cache file is
written with to_csv(index=False) and read back with read_csv, which
preserves the header exactly.  The legacy ZIP path
(CFPBRealDataFetcher.load_and_filter_data, real_data_fetcher.py lines
199-251) loads the bulk flat file and applies three row masks; it never
selects, renames or drops columns, so its output carries the native column
set of the bulk file.
-/

/-- The canonical column names of the normalized schema. -/
def canonicalCols : List String :=
  ["Complaint ID", "Date received", "Date sent to company", "Product",
   "Issue", "Company", "State", "Consumer complaint narrative"]

/-- The $select list of the API request (lines 52-62): the narrative
column is appended only when narratives are included. -/
def apiSelectCols (includeNarr : Bool) : List String :=
  ["complaint_id", "date_received", "date_sent_to_company", "product",
   "issue", "company", "state"]
    ++ (if includeNarr then ["consumer_complaint_narrative"] else [])

/-- The df.rename mapping of lines 99-111. -/
def renameCol (c : String) : String :=
  if c = "complaint_id" then "Complaint ID"
  else if c = "date_received" then "Date received"
  else if c = "date_sent_to_company" then "Date sent to company"
  else if c = "product" then "Product"
  else if c = "issue" then "Issue"
  else if c = "company" then "Company"
  else if c = "state" then "State"
  else if c = "consumer_complaint_narrative" then
    "Consumer complaint narrative"
  else c

/-- The column names of the table the API path returns. -/
def apiCols (includeNarr : Bool) : List String :=
  (apiSelectCols includeNarr).map renameCol

/-- to_csv(index=False) followed by read_csv preserves the header row
exactly, so a cache read returns the column names that were written. -/
def csvRoundTripCols (written : List String) : List String := written

/-- A row of the bulk flat file: named string cells, with a data-dependent
column set. -/
def RawRow : Type := List (String × String)

instance : DecidableEq RawRow := by
  unfold RawRow
  infer_instance

/-- Cell lookup by column name. -/
def cell (r : RawRow) (c : String) : Option String :=
  (r.find? (fun p => p.fst == c)).map (fun p => p.snd)

/-- The three row masks of the ZIP path (real_data_fetcher.py lines
219-238): date received within the window (a row whose date fails to parse
compares as NaT, hence false), narrative present and non blank after strip,
and product not in the exclusion list (a missing product cell is not in the
list, hence kept).  The date parse pd.to_datetime is abstracted as the
parseDate argument. -/
def zipRowKeep (w : WindowSpec) (parseDate : String → Option Int)
    (r : RawRow) : Bool :=
  (match (cell r "Date received").bind parseDate with
   | some d => decide (w.startDate ≤ d) && decide (d ≤ w.endDate)
   | none => false)
    && (match cell r "Consumer complaint narrative" with
        | some s => !(strBlank s)
        | none => false)
    && !(w.exclusions.contains ((cell r "Product").getD ""))

/-- The ZIP path filtering step df[date_mask & narrative_mask &
product_mask].copy(): rows are filtered, the column set is returned
unchanged. -/
def zipLoadAndFilter (w : WindowSpec) (parseDate : String → Option Int)
    (cols : List String) (rows : List RawRow) :
    List String × List RawRow :=
  (cols, rows.filter (zipRowKeep w parseDate))

/-! ## Aggregator (get_top_trends, get_sub_trends, get_top_companies,
real_data_fetcher_lite.py lines 201-265)

pandas value_counts is modelled as: distinct values in order of first
appearance, each paired with its occurrence count, stably sorted by count
descending.  The groupby based product and issue combination table is
modelled with the same counting core; its tie order beyond the descending
count sort is not relied on by any theorem.  The input Option models the
df is None guard; none output models the None the code returns for empty
input.
-/

/-- Distinct values of a list in order of first appearance. -/
def firstOccurrences {α : Type} [BEq α] (l : List α) : List α :=
  l.foldl (fun acc x => if acc.contains x then acc else acc ++ [x]) []

/-- Model of Series.value_counts: value and count pairs, count
descending, stable. -/
def valueCounts {α : Type} [BEq α] (l : List α) : List (α × Nat) :=
  List.insertionSort (fun a b => b.2 ≤ a.2)
    ((firstOccurrences l).map (fun v => (v, l.count v)))

/-- The result of get_top_trends. -/
structure Trends where
  topProducts : List (String × Nat)
  topIssues : List (String × Nat)
  productIssueCombos : List ((String × String) × Nat)
deriving DecidableEq

/-- get_top_trends (lines 201-209): None for a None or empty table,
otherwise the head(top_n) of the three breakdowns. -/
def getTopTrends (df : Option (List Row)) (topN : Nat) : Option Trends :=
  match df with
  | none => none
  | some rows =>
    if rows.length = 0 then none
    else
      some
        ⟨(valueCounts (rows.map (fun r => r.product))).take topN,
         (valueCounts (rows.map (fun r => r.issue))).take topN,
         (valueCounts (rows.map (fun r => (r.product, r.issue)))).take topN⟩

/-- get_sub_trends (lines 211-234): None for a None or empty table or an
absent product; otherwise, for each of the top issues within the product,
the issue, its count and up to three sample rows.  (The percentage field,
a floating point presentation value, is not modelled.) -/
def getSubTrends (df : Option (List Row)) (product : String) (topN : Nat) :
    Option (List (String × Nat × List Row)) :=
  match df with
  | none => none
  | some rows =>
    if rows.length = 0 then none
    else
      let sub := rows.filter (fun r => r.product == product)
      if sub = [] then none
      else
        some
          (((valueCounts (sub.map (fun r => r.issue))).take topN).map
            (fun ci =>
              (ci.1, ci.2, (sub.filter (fun r => r.issue == ci.1)).take 3)))

/-- The fixed company denylist of get_top_companies (lines 239-248). -/
def creditAgencies : List String :=
  ["EQUIFAX, INC.",
   "Experian Information Solutions Inc.",
   "TRANSUNION INTERMEDIATE HOLDINGS, INC.",
   "TransUnion Intermediate Holdings, Inc.",
   "EXPERIAN INFORMATION SOLUTIONS INC.",
   "Equifax Information Services LLC",
   "EXPERIAN",
   "EQUIFAX"]

/-- get_top_companies (lines 236-265): None for a None or empty table;
otherwise drop the denylisted companies, take the head(top_n) company
counts and, per company, its top five issue counts.  (The sample complaint
records, projections of the same filtered rows, are not modelled.) -/
def getTopCompanies (df : Option (List Row)) (topN : Nat) :
    Option (List (String × Nat × List (String × Nat))) :=
  match df with
  | none => none
  | some rows =>
    if rows.length = 0 then none
    else
      let base := rows.filter (fun r => !(creditAgencies.contains r.company))
      some
        (((valueCounts (base.map (fun r => r.company))).take topN).map
          (fun cn =>
            (cn.1, cn.2,
             (valueCounts
               ((base.filter (fun r => r.company == cn.1)).map
                 (fun r => r.issue))).take 5)))

/-! ## Helper lemmas on the paging loop -/

/-- One loop step on an empty page: one request, nothing appended, stop. -/
theorem fetchPages_nil_step (pages : Nat → List Row) (batch fuel offset : Nat)
    (h : pages offset = []) :
    fetchPages pages batch (fuel + 1) offset = ([], 1) := by
  simp [fetchPages, h]

/-- One loop step on a short page: one request, the page is the final
chunk, stop. -/
theorem fetchPages_short_step (pages : Nat → List Row)
    (batch fuel offset : Nat) (h : (pages offset).length < batch) :
    fetchPages pages batch (fuel + 1) offset = (pages offset, 1) := by
  by_cases hnil : pages offset = []
  · simp [fetchPages, hnil]
  · simp [fetchPages, hnil, h]

/-- One loop step on a full (or longer) page: append it and continue at
offset + batch. -/
theorem fetchPages_full_step (pages : Nat → List Row)
    (batch fuel offset : Nat) (hnil : pages offset ≠ [])
    (hlen : ¬ (pages offset).length < batch) :
    fetchPages pages batch (fuel + 1) offset =
      (pages offset ++ (fetchPages pages batch fuel (offset + batch)).1,
       (fetchPages pages batch fuel (offset + batch)).2 + 1) := by
  simp [fetchPages, hnil, hlen]

/-- Every row the paging loop returns came from some server page. -/
theorem mem_of_mem_fetchPages (pages : Nat → List Row) (batch : Nat) :
    ∀ (fuel offset : Nat) (r : Row),
      r ∈ (fetchPages pages batch fuel offset).1 → ∃ o, r ∈ pages o := by
  intro fuel
  induction fuel with
  | zero =>
    intro offset r h
    simp [fetchPages] at h
  | succ f ih =>
    intro offset r h
    by_cases hnil : pages offset = []
    · rw [fetchPages_nil_step pages batch f offset hnil] at h
      simp at h
    · by_cases hlen : (pages offset).length < batch
      · rw [fetchPages_short_step pages batch f offset hlen] at h
        exact ⟨offset, h⟩
      · rw [fetchPages_full_step pages batch f offset hnil hlen] at h
        rcases List.mem_append.mp h with h | h
        · exact ⟨offset, h⟩
        · exact ih (offset + batch) r h

/-- Every row of a server page satisfies the $where predicate. -/
theorem wherePred_of_mem_socrataPage (db : List Row) (w : WindowSpec)
    (batch off : Nat) (r : Row) (h : r ∈ socrataPage db w batch off) :
    wherePred w r = true := by
  unfold socrataPage at h
  have h1 : r ∈ socrataOrder (db.filter (wherePred w)) :=
    List.mem_of_mem_drop (List.mem_of_mem_take h)
  have h2 : r ∈ db.filter (wherePred w) := by
    unfold socrataOrder at h1
    exact (List.mem_insertionSort _).mp h1
  exact (List.mem_filter.mp h2).2

/-! ## C6: window policy clamping -/

/-- C6: for every configuration input the month count is clamped into
[1, 12] rather than rejected; an unparsable numeric value falls back to
the default of 4 months; and the WindowSpec is computed as a pure function
of the inputs, with end = now and start = now - 30 * months, with no other
failure mode. -/
theorem window_policy_clamped (now : Int) (monthsCfg liteCfg : Option String) :
    (1 ≤ monthsWindow monthsCfg ∧ monthsWindow monthsCfg ≤ 12)
    ∧ (computeWindow now monthsCfg liteCfg).startDate
        = now - 30 * monthsWindow monthsCfg
    ∧ (computeWindow now monthsCfg liteCfg).endDate = now
    ∧ (∀ s, monthsCfg = some s → pyParseInt s = none →
        monthsWindow monthsCfg = 4) := by
  refine ⟨⟨le_max_left _ _, max_le (by norm_num) (min_le_right _ _)⟩,
    rfl, rfl, ?_⟩
  intro s hs hp
  subst hs
  simp [monthsWindow, hp]

/-- Witness for C6 at the unparsable input "abc": the parse fails, the
result is the default 4, and 4 lies in [1, 12]. -/
theorem window_policy_clamped_witness :
    (1 ≤ monthsWindow (some "abc") ∧ monthsWindow (some "abc") ≤ 12)
    ∧ monthsWindow (some "abc") = 4 :=
  ⟨(window_policy_clamped 0 (some "abc") none).1,
   (window_policy_clamped 0 (some "abc") none).2.2.2 "abc" rfl (by decide)⟩

/-! ## C8: the window date filter is idempotent -/

/-- C8: applying the window date filter twice gives the same table, and in
particular the same row count, as applying it once. -/
theorem window_filter_idempotent (w : WindowSpec) (rows : List Row) :
    dateFilter w (dateFilter w rows) = dateFilter w rows
    ∧ (dateFilter w (dateFilter w rows)).length
        = (dateFilter w rows).length := by
  have h : dateFilter w (dateFilter w rows) = dateFilter w rows := by
    unfold dateFilter
    rw [List.filter_filter]
    simp [Bool.and_self]
  exact ⟨h, by rw [h]⟩

/-! ## C9: aggregator on empty input and on a concrete product column -/

/-- A three row table whose products column is A, A, B. -/
def c9Rows : List Row :=
  [mkRow "1" 1 "A" "i1" "c1" "s1" none,
   mkRow "2" 2 "A" "i2" "c2" "s2" none,
   mkRow "3" 3 "B" "i3" "c3" "s3" none]

/-- C9: on a missing or empty table, get_top_trends, get_sub_trends and
get_top_companies all return the empty sentinel (None) and, being total
functions, never raise; on the table with products A, A, B the top one
product breakdown is the pair of A with count 2. -/
theorem aggregator_empty_and_top1 :
    (∀ n, getTopTrends none n = none ∧ getTopTrends (some []) n = none)
    ∧ (∀ p n, getSubTrends none p n = none
        ∧ getSubTrends (some []) p n = none)
    ∧ (∀ n, getTopCompanies none n = none
        ∧ getTopCompanies (some []) n = none)
    ∧ (getTopTrends (some c9Rows) 1).map Trends.topProducts
        = some [("A", 2)] := by
  refine ⟨fun n => ⟨rfl, rfl⟩, fun p n => ⟨rfl, rfl⟩,
    fun n => ⟨rfl, rfl⟩, by decide⟩

/-! ## C4: pagination termination -/

/-- C4: against a remote source serving three full pages followed by a
short fourth page, the paging loop issues exactly 4 page requests and
returns the concatenation of the four pages (3 times the page size plus
the partial page); and in general a single page shorter than the page
size, or an empty body, stops the loop after exactly one request. -/
theorem pagination_three_full_pages (pages : Nat → List Row)
    (batch fuel : Nat) (hfuel : 4 ≤ fuel)
    (h0 : (pages 0).length = batch)
    (h1 : (pages batch).length = batch)
    (h2 : (pages (batch + batch)).length = batch)
    (h3 : (pages (batch + batch + batch)).length < batch) :
    fetchPages pages batch fuel 0
      = (pages 0 ++ (pages batch ++ (pages (batch + batch)
          ++ pages (batch + batch + batch))), 4)
    ∧ ∀ (qs : Nat → List Row) (b off g : Nat),
        (qs off).length < b → (fetchPages qs b (g + 1) off).2 = 1 := by
  have hb : 0 < batch := lt_of_le_of_lt (Nat.zero_le _) h3
  constructor
  · obtain ⟨k, rfl⟩ : ∃ k, fuel = k + 4 := ⟨fuel - 4, by omega⟩
    have hn0 : pages 0 ≠ [] := by
      intro hcon; rw [hcon] at h0; simp at h0; omega
    have hn1 : pages batch ≠ [] := by
      intro hcon; rw [hcon] at h1; simp at h1; omega
    have hn2 : pages (batch + batch) ≠ [] := by
      intro hcon; rw [hcon] at h2; simp at h2; omega
    rw [show k + 4 = k + 3 + 1 by omega]
    rw [fetchPages_full_step pages batch (k + 3) 0 hn0 (by omega)]
    rw [show (0 : Nat) + batch = batch by omega]
    rw [show k + 3 = k + 2 + 1 by omega]
    rw [fetchPages_full_step pages batch (k + 2) batch hn1 (by omega)]
    rw [show k + 2 = k + 1 + 1 by omega]
    rw [fetchPages_full_step pages batch (k + 1) (batch + batch) hn2
      (by omega)]
    rw [fetchPages_short_step pages batch k (batch + batch + batch) h3]
  · intro qs b off g h
    rw [fetchPages_short_step qs b g off h]

/-- A sample row for the pagination witness. -/
def c4Row : Row := mkRow "p" 1 "P" "I" "C" "S" none

/-- A mocked remote source for page size 2: offsets 0, 2 and 4 serve full
pages, offset 6 a partial page of one row, everything beyond is empty. -/
def c4Pages : Nat → List Row := fun off =>
  if off < 6 then [c4Row, c4Row] else if off = 6 then [c4Row] else []

/-- Witness for C4: with page size 2 the loop returns the 7 concatenated
rows in exactly 4 requests. -/
theorem pagination_three_full_pages_witness :
    fetchPages c4Pages 2 4 0
      = ([c4Row, c4Row, c4Row, c4Row, c4Row, c4Row, c4Row], 4) := by
  have h := (pagination_three_full_pages c4Pages 2 4 (by decide)
    (by decide) (by decide) (by decide) (by decide)).1
  rw [h]
  decide

/-! ## C5: the filter guarantees of the remote fetcher output

The server side $where clause guarantees the date bounds, the exclusion
list, and narrative presence (IS NOT NULL).  It does not guarantee
non-blankness: a whitespace-only narrative is a present, non-null value
and passes the filter, unlike on the ZIP path, which strips and compares
against the empty string.
-/

/-- C5 (amended): every row of the remote fetcher output has its date
received inside [start, end] and a product outside the exclusion set, and,
when the narrative flag is set, a present (non-null) narrative. -/
theorem fetchApi_rows_satisfy_filter (w : WindowSpec) (db : List Row)
    (fuel : Nat) (rows : List Row) (r : Row)
    (hres : fetchApi w db fuel = some rows) (hr : r ∈ rows) :
    (w.startDate ≤ r.dateReceived ∧ r.dateReceived ≤ w.endDate)
    ∧ (w.includeNarratives = true → r.narrative.isSome = true)
    ∧ w.exclusions.contains r.product = false := by
  have hmem : r ∈ (fetchPages (socrataPage db w apiBatchSize)
      apiBatchSize fuel 0).1 := by
    by_cases hemp :
        (fetchPages (socrataPage db w apiBatchSize) apiBatchSize fuel 0).1
          = []
    · simp [fetchApi, hemp] at hres
    · simp only [fetchApi, if_neg hemp, Option.some.injEq] at hres
      rw [← hres] at hr
      exact hr
  obtain ⟨o, ho⟩ :=
    mem_of_mem_fetchPages (socrataPage db w apiBatchSize) apiBatchSize
      fuel 0 r hmem
  have hw := wherePred_of_mem_socrataPage db w apiBatchSize o r ho
  simp only [wherePred, dateInWindow, Bool.and_eq_true, Bool.or_eq_true,
    Bool.not_eq_true', decide_eq_true_eq] at hw
  obtain ⟨⟨⟨hd1, hd2⟩, hn⟩, hp⟩ := hw
  refine ⟨⟨hd1, hd2⟩, ?_, hp⟩
  intro hinc
  rcases hn with hn | hn
  · rw [hinc] at hn
    simp at hn
  · exact hn

/-- The concrete window for the C5 instances. -/
def c5Window : WindowSpec := ⟨0, 100, true, creditExclusions⟩

/-- An in-window row with a present, non-blank narrative. -/
def c5Row : Row := mkRow "1" 50 "Mortgage" "Bad service" "ACME" "CA" (some "ok")

/-- An in-window row whose narrative is present but whitespace-only. -/
def c5BlankRow : Row := mkRow "2" 50 "Mortgage" "Bad service" "ACME" "CA" (some " ")

/-- Witness for C5 at a one row dataset: the returned row satisfies the
date bounds, has a present narrative and a non-excluded product. -/
theorem fetchApi_rows_satisfy_filter_witness :
    (c5Window.startDate ≤ c5Row.dateReceived
      ∧ c5Row.dateReceived ≤ c5Window.endDate)
    ∧ (c5Window.includeNarratives = true → c5Row.narrative.isSome = true)
    ∧ c5Window.exclusions.contains c5Row.product = false :=
  fetchApi_rows_satisfy_filter c5Window [c5Row] 5 [c5Row] c5Row
    (by decide) (by decide)

/-- Counterexample to C5 as stated: with the narrative flag set, a dataset
whose single in-window row carries the whitespace-only narrative still has
that row returned by the remote fetcher, because the server side filter
only tests IS NOT NULL; the returned narrative is blank after strip, so
the fetcher output is not free of blank narratives. -/
theorem c5_blank_narrative_counterexample :
    fetchApi c5Window [c5BlankRow] 5 = some [c5BlankRow]
    ∧ c5Window.includeNarratives = true
    ∧ c5BlankRow.narrative = some " "
    ∧ strBlank " " = true := by decide

/-! ## Helper lemmas on the loader tiers -/

/-- A fresh, readable, in-window non-empty snapshot in a non-cloud
environment makes the cache tier hit with the date-refiltered rows. -/
theorem cacheTier_hit (w : WindowSpec) (env : Env) (rows : List Row)
    (hcloud : env.isCloud = false) (hex : env.cacheExists = true)
    (hage : env.cacheAgeDays < 30) (hread : env.cacheRead = some rows)
    (hne : 0 < (dateFilter w rows).length) :
    cacheTier w env = some (dateFilter w rows) := by
  simp [cacheTier, hcloud, hex, hage, hread, hne]

/-- A cache read error (read or parse raised) makes the cache tier miss. -/
theorem cacheTier_none_of_read_error (w : WindowSpec) (env : Env)
    (h : env.cacheRead = none) : cacheTier w env = none := by
  unfold cacheTier
  rw [h]
  split
  · split
    · rfl
    · rfl
  · rfl

/-! ## C2: a fresh cache hit short-circuits both fetchers -/

/-- C2 (amended): in a non-cloud environment, whenever the snapshot
exists, is under the 30 day maximum age, reads without error, and is
non-empty after re-applying the window date bounds, the loader returns
exactly that refiltered snapshot and invokes neither the remote fetcher
nor the legacy ZIP fetcher. -/
theorem cache_hit_short_circuit (w : WindowSpec) (env : Env)
    (rows : List Row)
    (hcloud : env.isCloud = false) (hex : env.cacheExists = true)
    (hage : env.cacheAgeDays < 30) (hread : env.cacheRead = some rows)
    (hne : 0 < (dateFilter w rows).length) :
    loadAndFilterData w env = ⟨some (dateFilter w rows), 0, 0⟩ := by
  unfold loadAndFilterData
  rw [cacheTier_hit w env rows hcloud hex hage hread hne]

/-- The concrete window for the loader instances of C2. -/
def c2Window : WindowSpec := ⟨0, 100, true, creditExclusions⟩

/-- The cached row of the C2 instances. -/
def c2Row : Row := mkRow "3" 50 "Mortgage" "i" "ACME" "CA" (some "n")

/-- The row served by the remote fetcher in the C2 cloud instance. -/
def c2ApiRow : Row := mkRow "4" 60 "Mortgage" "j" "ACME" "CA" (some "m")

/-- A non-cloud environment with a fresh, readable, in-window snapshot. -/
def c2Env : Env :=
  ⟨false, true, 3, some [c2Row], Except.error (), Except.error ()⟩

/-- Witness for C2: on the concrete environment the loader returns the
refiltered snapshot with zero remote and zero legacy calls. -/
theorem cache_hit_short_circuit_witness :
    loadAndFilterData c2Window c2Env
      = ⟨some (dateFilter c2Window [c2Row]), 0, 0⟩ :=
  cache_hit_short_circuit c2Window c2Env [c2Row] rfl rfl (by decide) rfl
    (by decide)

/-- A cloud environment holding the very same fresh snapshot. -/
def c2CloudEnv : Env :=
  ⟨true, true, 3, some [c2Row], Except.ok (some [c2ApiRow]),
   Except.ok none⟩

/-- Counterexample to C2 as stated: in a cloud environment the cache tier
is skipped outright, so even though the snapshot exists, is fresh, reads
fine and is non-empty after the date refilter, the remote fetcher is
invoked (one API call) and its result, not the snapshot, is returned. -/
theorem c2_cloud_counterexample :
    c2CloudEnv.cacheExists = true
    ∧ c2CloudEnv.cacheAgeDays < 30
    ∧ c2CloudEnv.cacheRead = some [c2Row]
    ∧ 0 < (dateFilter c2Window [c2Row]).length
    ∧ (loadAndFilterData c2Window c2CloudEnv).apiCalls = 1
    ∧ (loadAndFilterData c2Window c2CloudEnv).data = some [c2ApiRow] := by
  decide

/-! ## C3: exhaustion of all three tiers returns the no-data value -/

/-- C3: when the cache tier misses, the API tier raises or returns no
rows, and the legacy tier raises or returns no rows, the loader returns
the explicit no-data value (data = none) to its caller; being a total
function it raises nothing, and the counters show the API tier was
attempted once and the legacy tier once in a local environment and not at
all in a cloud one. -/
theorem all_tiers_exhausted_no_data (w : WindowSpec) (env : Env)
    (hc : cacheTier w env = none) (ha : apiTier env = none)
    (hl : legacyTier env = none) :
    loadAndFilterData w env
      = ⟨none, 1, if env.isCloud then 0 else 1⟩ := by
  unfold loadAndFilterData
  rw [hc, ha]
  by_cases hcl : env.isCloud
  · simp [hcl]
  · simp [hcl, hl]

/-- The concrete window for the C3 instance. -/
def c3Window : WindowSpec := ⟨0, 100, true, creditExclusions⟩

/-- A local environment where every tier fails: no cache file, and both
fetchers raise. -/
def c3Env : Env :=
  ⟨false, false, 0, none, Except.error (), Except.error ()⟩

/-- Witness for C3: on the all-failing environment the loader returns
data = none after one API attempt and one legacy attempt. -/
theorem all_tiers_exhausted_no_data_witness :
    loadAndFilterData c3Window c3Env = ⟨none, 1, 1⟩ :=
  all_tiers_exhausted_no_data c3Window c3Env rfl rfl rfl

/-! ## C7: cache errors never propagate -/

/-- The same environment with the cache file absent. -/
def envNoCache (env : Env) : Env :=
  ⟨env.isCloud, false, env.cacheAgeDays, env.cacheRead, env.apiResult,
   env.legacyResult⟩

/-- C7: a cache read error makes the whole run behave exactly as if no
cache file existed - the loader advances to the next tier and, being a
total function, lets no exception reach the caller; and the value the
fetch returns is independent of whether its best effort cache write
succeeded, so a write failure never prevents returning the fetched
table. -/
theorem cache_errors_never_propagate :
    (∀ (w : WindowSpec) (env : Env), env.cacheRead = none →
        loadAndFilterData w env = loadAndFilterData w (envNoCache env))
    ∧ ∀ (w : WindowSpec) (db : List Row) (fuel : Nat),
        (fetchApiWrite w db fuel true).1 = (fetchApiWrite w db fuel false).1 := by
  constructor
  · intro w env h
    have h2 : cacheTier w (envNoCache env) = none := by
      simp [cacheTier, envNoCache]
    unfold loadAndFilterData
    rw [cacheTier_none_of_read_error w env h, h2]
    rfl
  · intro w db fuel
    cases hfa : fetchApi w db fuel <;> simp [fetchApiWrite, hfa]

/-- The concrete window for the C7 instance. -/
def c7Window : WindowSpec := ⟨0, 100, true, creditExclusions⟩

/-- A row fetched by the API in the C7 instance. -/
def c7Row : Row := mkRow "5" 50 "Mortgage" "i" "ACME" "CA" (some "n")

/-- An environment where the cache file exists and is fresh but reading it
raises (cacheRead = none), and the API succeeds. -/
def c7Env : Env :=
  ⟨false, true, 3, none, Except.ok (some [c7Row]), Except.ok none⟩

/-- Witness for C7 on the concrete environment and a one row dataset. -/
theorem cache_errors_never_propagate_witness :
    loadAndFilterData c7Window c7Env
        = loadAndFilterData c7Window (envNoCache c7Env)
    ∧ (fetchApiWrite c7Window [c7Row] 5 true).1
        = (fetchApiWrite c7Window [c7Row] 5 false).1 :=
  ⟨cache_errors_never_propagate.1 c7Window c7Env rfl,
   cache_errors_never_propagate.2 c7Window [c7Row] 5⟩

/-! ## C10: a cache hit refilters by date alone -/

/-- C10: on a cache hit the loader returns the cached rows filtered by the
window date bounds only; any cached row whose date lies in the window is
returned, with no hypothesis on its narrative or its product, so the
narrative-presence condition and the product exclusion set are not
re-checked against the cached snapshot. -/
theorem cache_hit_date_bounds_only (w : WindowSpec) (env : Env)
    (rows : List Row) (r : Row)
    (hcloud : env.isCloud = false) (hex : env.cacheExists = true)
    (hage : env.cacheAgeDays < 30) (hread : env.cacheRead = some rows)
    (hr : r ∈ rows) (hd1 : w.startDate ≤ r.dateReceived)
    (hd2 : r.dateReceived ≤ w.endDate) :
    (loadAndFilterData w env).data = some (dateFilter w rows)
    ∧ r ∈ dateFilter w rows := by
  have hrf : r ∈ dateFilter w rows := by
    unfold dateFilter
    exact List.mem_filter.mpr ⟨hr, by simp [dateInWindow, hd1, hd2]⟩
  have hne : 0 < (dateFilter w rows).length := List.length_pos_of_mem hrf
  constructor
  · unfold loadAndFilterData
    rw [cacheTier_hit w env rows hcloud hex hage hread hne]
  · exact hrf

/-- The concrete window for the C10 instance: narratives required,
credit products excluded. -/
def c10Window : WindowSpec := ⟨0, 100, true, creditExclusions⟩

/-- A cached row violating both current filter settings: an excluded
product and a missing narrative, but an in-window date. -/
def c10Row : Row := mkRow "9" 50 "Credit reporting" "i" "EQUIFAX" "CA" none

/-- A non-cloud environment whose fresh snapshot holds only that row. -/
def c10Env : Env :=
  ⟨false, true, 3, some [c10Row], Except.error (), Except.error ()⟩

/-- Witness for C10: the row with an excluded product and no narrative is
returned by the cache hit because only its date is re-checked. -/
theorem cache_hit_date_bounds_only_witness :
    (loadAndFilterData c10Window c10Env).data
        = some (dateFilter c10Window [c10Row])
    ∧ c10Row ∈ dateFilter c10Window [c10Row] :=
  cache_hit_date_bounds_only c10Window c10Env [c10Row] c10Row rfl rfl
    (by decide) rfl (by decide) (by decide) (by decide)

/-! ## C1: column schema alignment across the three origins -/

/-- C1 (amended): the API path always emits the canonical column names
(the full canonical schema with narratives, its first seven columns in
lite mode); the cache file, written by that path and read back, carries
exactly the written column names, so remote and cache schemas coincide for
a given configuration; the legacy ZIP path, by contrast, filters rows only
and passes the native column set of the bulk file through unchanged, so
its schema equals the canonical one only when the bulk file already has
exactly the canonical columns. -/
theorem schema_remote_cache_aligned :
    (∀ inc : Bool, csvRoundTripCols (apiCols inc) = apiCols inc)
    ∧ apiCols true = canonicalCols
    ∧ apiCols false = canonicalCols.take 7
    ∧ ∀ (w : WindowSpec) (p : String → Option Int) (cols : List String)
        (rows : List RawRow), (zipLoadAndFilter w p cols rows).1 = cols :=
  ⟨fun _ => rfl, by decide, by decide, fun _ _ _ _ => rfl⟩

/-- The concrete window for the C1 counterexample. -/
def c1Window : WindowSpec := ⟨0, 100, true, creditExclusions⟩

/-- A bulk file header holding the canonical columns plus one of the extra
native columns of the published bulk dataset. -/
def c1BulkCols : List String := canonicalCols ++ ["Sub-product"]

/-- Counterexample to C1 as stated: the ZIP fallback output for a bulk
file with an extra native column contains a column name the API path never
emits, so the three origins do not all produce identical column name
sets. -/
theorem c1_bulk_schema_counterexample :
    "Sub-product" ∈ (zipLoadAndFilter c1Window pyParseInt c1BulkCols []).1
    ∧ "Sub-product" ∉ apiCols true
    ∧ (zipLoadAndFilter c1Window pyParseInt c1BulkCols []).1
        ≠ apiCols true := by
  decide

end CFPB
